import Mathlib

/-!
Shallow embedding of the credit-default inference service (`app.py`) and
proofs about its prediction pipeline.

The service handles each request over a single-row pandas DataFrame built
from the JSON payload (`pd.DataFrame([features])`), so rows are embedded as
association lists `List (String × Value)` with one value per column.  The
opaque ML artifacts (the fitted scaler and classifier) are embedded as
structures whose optional attributes are `Option` fields and whose fallible
methods return `Except String` (a Python exception becomes `Except.error`).
Numeric JSON values are idealised as rationals; classifier scores and
probabilities, on which the code applies the exponential, are kept as
`Float` (matching Python's binary64 floats).
-/

namespace CreditApp

/-- A cell value of the single-row frame.  JSON numbers, strings, booleans
are `num` / `str` / `bool`.  A JSON `null` arrives in pandas as Python
`None`, giving an object-dtype column (`null` here); Python's JSON decoder
also admits `NaN`, which gives a float-dtype column (`nan` here).  Both are
"missing" for `isnull` / `fillna`. -/
inductive Value where
  | num (q : ℚ)
  | str (s : String)
  | bool (b : Bool)
  | null
  | nan
deriving DecidableEq

/-- A top-level JSON request body. -/
inductive Json where
  | obj (kvs : List (String × Value))
  | arr (elems : List Value)
  | str (s : String)
  | num (q : ℚ)
  | bool (b : Bool)
  | null
deriving DecidableEq

/-- The request body is a JSON object. -/
def isObj : Json → Bool
  | .obj _ => true
  | _ => false

/-- The fitted scaler artifact (`scaler.pkl`).  `feature_names_in_` and
`mean_` model the optional sklearn attributes read via `hasattr`;
`transform` models `scaler.transform(data_to_scale)` on the single-row
frame, returning the scaled row or raising (`Except.error`). -/
structure Scaler where
  feature_names_in_ : Option (List String)
  mean_ : Option (List ℚ)
  transform : List (String × Value) → Except String (List Value)

/-- The fitted classifier artifact (`credit_scoring_model.pkl`).
`predict` models `int(model.predict(X)[0])` (any exception, including an
empty result array, is an `Except.error`); `predict_proba_pos` models
`float(model.predict_proba(X)[0][1])`, the positive-class probability of
the single row, present iff `hasattr(model, "predict_proba")`;
`decision_function` models `float(model.decision_function(X)[0])`,
present iff `hasattr(model, "decision_function")`. -/
structure Model where
  feature_names_in_ : Option (List String)
  predict : List Value → Except String Int
  predict_proba_pos : Option (List Value → Except String Float)
  decision_function : Option (List Value → Except String Float)

/-- The process-wide state after startup: the two module-level globals. -/
structure Ctx where
  scaler : Option Scaler
  model : Option Model

/-- Startup loading (`model = joblib.load(...); scaler = joblib.load(...)`
inside one `try`).  The model is loaded first: when its load raises, the
scaler assignment is never reached, so an absent model forces an absent
scaler.  `modelArtifact` / `scalerArtifact` are the results the two
`joblib.load` calls would produce (`none` = the call raises). -/
def startupCtx (modelArtifact : Option Model) (scalerArtifact : Option Scaler) : Ctx :=
  match modelArtifact with
  | none => ⟨none, none⟩
  | some m => ⟨scalerArtifact, some m⟩

/-- Schema resolution: `expected` is the scaler's `feature_names_in_` when
the scaler is present and has the attribute, else the model's, else
unknown. -/
def expectedFeatures (ctx : Ctx) : Option (List String) :=
  match ctx.scaler with
  | some s =>
    match s.feature_names_in_ with
    | some names => some names
    | none =>
      match ctx.model with
      | some m => m.feature_names_in_
      | none => none
  | none =>
    match ctx.model with
    | some m => m.feature_names_in_
    | none => none

/-- The update loop over the incoming columns:
`for col in data.columns: if col in expected: base[col] = data.iloc[0].loc[col]`,
starting from the dict `base` (here a function from column name to value).
A later assignment to the same key overwrites an earlier one, as in a
Python dict. -/
def applyPayload (expected : List String) (features : List (String × Value))
    (base : String → Value) : String → Value :=
  features.foldl
    (fun b cv =>
      if cv.1 ∈ expected then (fun c => if c = cv.1 then cv.2 else b c) else b)
    base

/-- Column alignment when the schema is known:
`base = {col: 0 for col in expected}`, the update loop above, then
`pd.DataFrame([base])[expected]` — one row whose columns are exactly
`expected`, in order. -/
def alignRow (expected : List String) (features : List (String × Value)) :
    List (String × Value) :=
  expected.map (fun c => (c, applyPayload expected features (fun _ => Value.num 0) c))

/-- The frame `data_to_scale` before imputation: the aligned row when the
schema is known, else the payload's own row in its given order. -/
def dataToScale (ctx : Ctx) (features : List (String × Value)) :
    List (String × Value) :=
  match expectedFeatures ctx with
  | some expected => alignRow expected features
  | none => features

/-- Pandas `isnull` on a cell of the single-row frame. -/
def isMissing : Value → Bool
  | .null => true
  | .nan => true
  | _ => false

/-- `data_to_scale.isnull().any().any()` for the single-row frame. -/
def rowHasNull (row : List (String × Value)) : Bool :=
  row.any (fun cv => isMissing cv.2)

/-- The scaler-mean fill:
`fill_values = {col: float(scaler.mean_[i]) for i, col in enumerate(expected)}`
followed by `data_to_scale.fillna(value=fill_values)`.  In the dict
comprehension a duplicated expected name keeps the last index, hence the
reversed lookup; a column not named in `fill_values` is left unfilled. -/
def meanFill (expected : List String) (means : List ℚ)
    (row : List (String × Value)) : List (String × Value) :=
  row.map (fun cv =>
    if isMissing cv.2 then
      match ((expected.zip means).reverse).lookup cv.1 with
      | some m => (cv.1, Value.num m)
      | none => cv
    else cv)

/-- Pandas dtype test for a single-value column:
`select_dtypes(include=[np.number])` keeps the column iff its one value is
a number or a float `NaN` (booleans, strings and Python `None` give bool
or object dtype). -/
def isNumeric : Value → Bool
  | .num _ => true
  | .nan => true
  | _ => false

/-- `Series.dropna()`: the non-missing values of a column. -/
def dropna (vs : List Value) : List Value :=
  vs.filter (fun v => !isMissing v)

/-- The rational carried by a numeric cell. -/
def toRat : Value → Option ℚ
  | .num q => some q
  | _ => none

/-- Pandas `Series.median` on the rationals of a column: the middle element
of the sorted values, or the mean of the two middle elements when their
count is even. -/
def medianRat (xs : List ℚ) : ℚ :=
  let s := xs.insertionSort (· ≤ ·)
  if s.length % 2 = 1 then s.getD (s.length / 2) 0
  else (s.getD (s.length / 2 - 1) 0 + s.getD (s.length / 2) 0) / 2

/-- `Series.mode()[0]`: `none` when every value is missing (the `[0]` on an
empty mode raises `KeyError` in the source, caught there).  `mode` drops
missing values and returns the most frequent one; pandas breaks ties by
sorting, which coincides with any tie-break when there is at most one
distinct non-missing value — always the case for the single-row frames
this service builds. -/
def modeFirst (vs : List Value) : Option Value :=
  let nn := dropna vs
  nn.foldl
    (fun best v =>
      match best with
      | none => some v
      | some b => if nn.count v > nn.count b then some v else best)
    none

/-- The numeric-column fallback:
`data_to_scale[c].fillna(non_null.median() if not non_null.empty else 0)`,
guarded by `data_to_scale[c].isnull().any()`. -/
def numericColFill (vs : List Value) : List Value :=
  if vs.any (fun v => isMissing v) then
    let nn := dropna vs
    let fill : Value :=
      if nn.isEmpty then Value.num 0 else Value.num (medianRat (nn.filterMap toRat))
    vs.map (fun v => if isMissing v then fill else v)
  else vs

/-- The non-numeric-column fallback: `fillna` with `mode()[0]`, or with
`""` when the mode computation raises. -/
def objColFill (vs : List Value) : List Value :=
  if vs.any (fun v => isMissing v) then
    match modeFirst vs with
    | some m => vs.map (fun v => if isMissing v then m else v)
    | none => vs.map (fun v => if isMissing v then Value.str "" else v)
  else vs

/-- The per-column median/mode fallback stage, applied to the single-row
frame: each column of the one-row frame is the singleton list of its
value, routed by dtype to the numeric or the non-numeric fill. -/
def fallbackFill (row : List (String × Value)) : List (String × Value) :=
  row.map (fun cv =>
    if isNumeric cv.2 then (cv.1, (numericColFill [cv.2]).headD cv.2)
    else (cv.1, (objColFill [cv.2]).headD cv.2))

/-- The guarded scaler-mean fill: applied when the scaler is present, has
`mean_`, and the schema is known; an out-of-range index in the
comprehension (`mean_` shorter than `expected`) raises, is swallowed by
the `except ... pass`, and leaves the row unchanged. -/
def meanFillStep (ctx : Ctx) (row : List (String × Value)) : List (String × Value) :=
  match ctx.scaler, expectedFeatures ctx with
  | some s, some expected =>
    match s.mean_ with
    | some means =>
      if expected.length ≤ means.length then meanFill expected means row else row
    | none => row
  | _, _ => row

/-- The imputation block: runs only when some cell is still missing; first
the scaler-mean fill, then, if a missing cell remains, the median/mode
fallback. -/
def imputeRow (ctx : Ctx) (row : List (String × Value)) : List (String × Value) :=
  if rowHasNull row then
    let row1 := meanFillStep ctx row
    if rowHasNull row1 then fallbackFill row1 else row1
  else row

/-- The row handed to the scaling step: aligned, then imputed. -/
def rowToScale (ctx : Ctx) (features : List (String × Value)) :
    List (String × Value) :=
  imputeRow ctx (dataToScale ctx features)

/-- The scaling step: `scaler.transform(data_to_scale)` when the scaler is
present, else the raw values `data_to_scale.values`. -/
def scaleStep (ctx : Ctx) (row : List (String × Value)) : Except String (List Value) :=
  match ctx.scaler with
  | some s => s.transform row
  | none => Except.ok (row.map Prod.snd)

/-- The logistic fallback `float(1.0 / (1.0 + np.exp(-score)))`. -/
def sigmoid (score : Float) : Float :=
  1.0 / (1.0 + Float.exp (-score))

/-- The class-probability attempt is unavailable or fails: no
`predict_proba` attribute, or the call raises. -/
def probaFails (m : Model) (x : List Value) : Bool :=
  match m.predict_proba_pos with
  | none => true
  | some f =>
    match f x with
    | .error _ => true
    | .ok _ => false

/-- The decision-score attempt is unavailable or fails: no
`decision_function` attribute, or the call raises. -/
def decisionFails (m : Model) (x : List Value) : Bool :=
  match m.decision_function with
  | none => true
  | some g =>
    match g x with
    | .error _ => true
    | .ok _ => false

/-- The probability step: try `predict_proba` under its own
`try/except` (failure resets to `None`); if the probability is still
`None`, try `decision_function` through the sigmoid under a second
`try/except`. -/
def probStep (m : Model) (x : List Value) : Option Float :=
  let probability : Option Float :=
    match m.predict_proba_pos with
    | some f =>
      match f x with
      | .ok p => some p
      | .error _ => none
    | none => none
  match probability with
  | some p => some p
  | none =>
    match m.decision_function with
    | some g =>
      match g x with
      | .ok s => some (sigmoid s)
      | .error _ => none
    | none => none

/-- A response body of the predict route. -/
inductive Body where
  | result (default_prediction : Int) (default_probability : Option Float)
  | error (msg : String)
  | errorTrace (msg : String)
  | validationError

/-- The body is one of the shapes the handler itself produces: a
`PredictionResult`, the soft `{error}` body, or the top-level-catch
`{error, trace}` body. -/
def isPredictionOrError : Body → Bool
  | .result _ _ => true
  | .error _ => true
  | .errorTrace _ => true
  | .validationError => false

/-- The predict handler body for an already-validated JSON object.  The
`isinstance(features, dict)` guard is satisfied by construction here (the
wrapper only hands a dict to the handler).  Every exception of a pipeline
step surfaces as `Except.error` and is converted by the top-level
`except Exception` into the `{error, trace}` body `errorTrace`. -/
def predict_default (ctx : Ctx) (features : List (String × Value)) : Body :=
  let row := rowToScale ctx features
  match scaleStep ctx row with
  | .error e => Body.errorTrace e
  | .ok data_scaled =>
    match ctx.model with
    | none => Body.error "model not loaded"
    | some m =>
      match m.predict data_scaled with
      | .error e => Body.errorTrace e
      | .ok prediction => Body.result prediction (probStep m data_scaled)

/-- An HTTP response: status code and body. -/
structure Response where
  status : Nat
  body : Body

/-- The full route behaviour, request validation included.  The route
parameter is the pydantic root model `AnyDict` wrapping `Dict[str, Any]`,
so FastAPI rejects any body whose top-level JSON value is not an object
with its standard validation-error response, HTTP 422, before the handler
runs; an object body reaches `predict_default`, whose own return value is
always sent with HTTP 200. -/
def handlePredictRequest (ctx : Ctx) (body : Json) : Response :=
  match body with
  | .obj kvs => ⟨200, predict_default ctx kvs⟩
  | _ => ⟨422, Body.validationError⟩

/-! ## Helper lemmas -/

theorem lookup_cons_self {β : Type} (c : String) (v : β) (l : List (String × β)) :
    ((c, v) :: l).lookup c = some v := by
  simp [List.lookup]

theorem lookup_cons_ne {β : Type} (c c1 : String) (v : β) (l : List (String × β))
    (h : c ≠ c1) : ((c1, v) :: l).lookup c = l.lookup c := by
  have hb : (c == c1) = false := beq_false_of_ne h
  simp [List.lookup, hb]

theorem lookup_eq_none_of_not_mem {β : Type} (c : String) (l : List (String × β))
    (h : c ∉ l.map Prod.fst) : l.lookup c = none := by
  induction l with
  | nil => rfl
  | cons cv rest ih =>
    obtain ⟨c1, v1⟩ := cv
    simp only [List.map_cons, List.mem_cons, not_or] at h
    rw [lookup_cons_ne c c1 v1 rest h.1]
    exact ih h.2

/-- The final value of `base[c]` (for `c` expected) after the update loop is
the payload's value at `c` when present, else the initial value: the loop
writes at most once there when the payload's keys are distinct. -/
theorem applyPayload_lookup (expected : List String) (features : List (String × Value))
    (base : String → Value) (c : String)
    (hnd : (features.map Prod.fst).Nodup) (hc : c ∈ expected) :
    applyPayload expected features base c = (features.lookup c).getD (base c) := by
  induction features generalizing base with
  | nil => rfl
  | cons cv rest ih =>
    obtain ⟨c1, v1⟩ := cv
    simp only [List.map_cons, List.nodup_cons] at hnd
    obtain ⟨hnotin, hnd'⟩ := hnd
    have hstep : applyPayload expected ((c1, v1) :: rest) base c
        = applyPayload expected rest
            (if c1 ∈ expected then (fun x => if x = c1 then v1 else base x) else base) c := rfl
    rw [hstep, ih _ hnd']
    by_cases hceq : c = c1
    · subst hceq
      have hlook : rest.lookup c = none := lookup_eq_none_of_not_mem c rest hnotin
      rw [lookup_cons_self, hlook, if_pos hc]
      simp
    · rw [lookup_cons_ne c c1 v1 rest hceq]
      have hbase : (if c1 ∈ expected then (fun x => if x = c1 then v1 else base x) else base) c
          = base c := by
        by_cases hmem : c1 ∈ expected
        · rw [if_pos hmem]; exact if_neg hceq
        · rw [if_neg hmem]
      rw [hbase]

/-- Closed form of the aligned row: the expected columns in order, each
carrying the payload's value for that name when present, else 0. -/
theorem alignRow_eq_map (expected : List String) (features : List (String × Value))
    (hnd : (features.map Prod.fst).Nodup) :
    alignRow expected features
      = expected.map (fun c => (c, (features.lookup c).getD (Value.num 0))) := by
  unfold alignRow
  refine List.map_congr_left (fun c hc => ?_)
  rw [applyPayload_lookup expected features _ c hnd hc]

/-! ## C1 — the worked scenario of the spec -/

/-- The scaler of the scenario: expected schema `["income","age","debt"]`,
stored training means with `mean(debt) = 1200`. -/
def scalerC1 : Scaler :=
  ⟨some ["income", "age", "debt"], some [40000, 30, 1200], fun _ => Except.ok []⟩

/-- Startup state of the scenario. -/
def ctxC1 : Ctx := ⟨some scalerC1, none⟩

/-- The scenario payload `{"income": 50000, "age": 35}`. -/
def payloadC1 : List (String × Value) :=
  [("income", Value.num 50000), ("age", Value.num 35)]

/-- C1 is false on the code: in the scenario, the row passed to scaling
carries `debt = 0` (the alignment default), not the scaler mean 1200. -/
theorem C1_counterexample :
    rowToScale ctxC1 payloadC1
      = [("income", Value.num 50000), ("age", Value.num 35), ("debt", Value.num 0)]
    ∧ rowToScale ctxC1 payloadC1
      ≠ [("income", Value.num 50000), ("age", Value.num 35), ("debt", Value.num 1200)] := by
  constructor
  · decide
  · decide

/-- C1 amended: in the scenario the absent expected feature `debt` is
pre-filled with the alignment default 0, which is not null, so the
scaler-mean imputation never fires — whatever the stored means are, the
row passed to scaling is `{income: 50000, age: 35, debt: 0}`. -/
theorem C1_amended :
    ∀ (means : Option (List ℚ))
      (tf : List (String × Value) → Except String (List Value))
      (mo : Option Model),
      rowToScale ⟨some ⟨some ["income", "age", "debt"], means, tf⟩, mo⟩ payloadC1
        = [("income", Value.num 50000), ("age", Value.num 35), ("debt", Value.num 0)] := by
  intro means tf mo
  rfl

/-! ## C2 — non-object bodies -/

/-- C2 is false on the code: a non-object body is rejected by the pydantic
root model with FastAPI's standard validation response, HTTP 422 — not
400. -/
theorem C2_counterexample :
    (handlePredictRequest ⟨none, none⟩ (Json.arr [])).status = 422
    ∧ (handlePredictRequest ⟨none, none⟩ (Json.arr [])).status ≠ 400 := by
  constructor
  · rfl
  · decide

/-- C2 amended: for every request body whose top-level JSON value is not an
object, the predict route responds with HTTP 422 (a client error), not
with a 200 response. -/
theorem C2_amended :
    ∀ (ctx : Ctx) (j : Json), isObj j = false →
      (handlePredictRequest ctx j).status = 422
      ∧ (handlePredictRequest ctx j).status ≠ 200 := by
  intro ctx j h
  cases j <;> simp_all [handlePredictRequest, isObj]

/-- Witness for C2 amended at the concrete body `"x"`. -/
theorem C2_amended_witness :
    (handlePredictRequest ⟨none, none⟩ (Json.str "x")).status = 422
    ∧ (handlePredictRequest ⟨none, none⟩ (Json.str "x")).status ≠ 200 :=
  C2_amended ⟨none, none⟩ (Json.str "x") rfl

/-! ## C7 — absent model -/

/-- C7: when the model artifact failed to load at startup (which also
aborts the scaler load, so no scaler transform can raise first), every
object payload gets HTTP 200 with body `{error: "model not loaded"}`. -/
theorem C7_model_not_loaded :
    ∀ (scalerArtifact : Option Scaler) (kvs : List (String × Value)),
      (handlePredictRequest (startupCtx none scalerArtifact) (Json.obj kvs)).status = 200
      ∧ (handlePredictRequest (startupCtx none scalerArtifact) (Json.obj kvs)).body
          = Body.error "model not loaded" := by
  intro scalerArtifact kvs
  exact ⟨rfl, rfl⟩

/-! ## C3 — object payloads never fail unhandled -/

/-- C3: every JSON-object payload gets HTTP 200 with a body that is a
`PredictionResult`, the soft `{error}` body, or the `{error, trace}` body:
every pipeline exception is caught by the handler's top-level
`except Exception`. -/
theorem C3_object_payload_safe :
    ∀ (ctx : Ctx) (kvs : List (String × Value)),
      (handlePredictRequest ctx (Json.obj kvs)).status = 200
      ∧ isPredictionOrError (handlePredictRequest ctx (Json.obj kvs)).body = true := by
  intro ctx kvs
  refine ⟨rfl, ?_⟩
  show isPredictionOrError (predict_default ctx kvs) = true
  simp only [predict_default]
  split
  · rfl
  · split
    · rfl
    · split
      · rfl
      · rfl

/-! ## C4 — column alignment -/

/-- C4: with a known schema and a payload with distinct keys (a JSON
object), the aligned single row has exactly the expected columns in schema
order; each column carries the payload's value for that name when present
and 0 otherwise, and payload keys outside the schema do not appear. -/
theorem C4_alignment :
    ∀ (expected : List String) (features : List (String × Value)),
      (features.map Prod.fst).Nodup →
      (alignRow expected features).map Prod.fst = expected
      ∧ alignRow expected features
          = expected.map (fun c => (c, (features.lookup c).getD (Value.num 0)))
      ∧ (∀ c v, (c, v) ∈ alignRow expected features → c ∈ expected) := by
  intro expected features hnd
  refine ⟨?_, alignRow_eq_map expected features hnd, ?_⟩
  · unfold alignRow
    rw [List.map_map]
    exact List.map_id expected
  · intro c v hmem
    unfold alignRow at hmem
    rw [List.mem_map] at hmem
    obtain ⟨a, ha, heq⟩ := hmem
    injection heq with h1 h2
    rw [← h1]
    exact ha

/-- Witness for C4 at a concrete schema and payload: the expected name
`"a"` is absent (defaults to 0), `"b"` is copied, and the extra key `"x"`
is dropped. -/
theorem C4_alignment_witness :
    alignRow ["a", "b"] [("b", Value.num 2), ("x", Value.str "y")]
      = [("a", Value.num 0), ("b", Value.num 2)] := by
  have h :=
    (C4_alignment ["a", "b"] [("b", Value.num 2), ("x", Value.str "y")] (by decide)).2.1
  rw [h]
  decide

/-! ## C5 — no null reaches scaling -/

/-- The median/mode fallback leaves no missing cell in the single-row
frame. -/
theorem fallbackFill_no_null (row : List (String × Value)) :
    rowHasNull (fallbackFill row) = false := by
  induction row with
  | nil => rfl
  | cons cv rest ih =>
    obtain ⟨c, v⟩ := cv
    cases v <;>
      simpa [fallbackFill, rowHasNull, numericColFill, objColFill, isNumeric,
        isMissing, dropna, modeFirst] using ih

/-- C5: for every startup state and payload, the row handed to the scaling
step contains no null/NaN cell — the imputation cascade resolves every
remaining gap. -/
theorem C5_no_null_reaches_scaling :
    ∀ (ctx : Ctx) (features : List (String × Value)),
      rowHasNull (rowToScale ctx features) = false := by
  intro ctx features
  unfold rowToScale
  simp only [imputeRow]
  split
  · split
    · exact fallbackFill_no_null _
    · rename_i h2
      simpa using h2
  · rename_i h
    simpa using h

/-! ## C9 — degenerate single-row fallback statistics -/

/-- C9: on the single-row frame, the median/mode fallback stage reduces to
the degenerate statistics: a still-missing numeric cell (float `NaN`)
becomes 0 — the non-null values of its column are empty, so the median
branch never fires — and a still-missing non-numeric cell (Python `None`)
becomes the empty string — the mode of an all-null column yields no value.
Non-missing cells are untouched. -/
theorem C9_degenerate_fallback :
    ∀ (row : List (String × Value)),
      fallbackFill row = row.map (fun cv =>
        (cv.1, match cv.2 with
               | Value.nan => Value.num 0
               | Value.null => Value.str ""
               | v => v)) := by
  intro row
  induction row with
  | nil => rfl
  | cons cv rest ih =>
    obtain ⟨c, v⟩ := cv
    simp only [fallbackFill, List.map_cons] at ih ⊢
    rw [ih]
    cases v <;> rfl

/-! ## C6 — the probability step -/

/-- C6: when `predict_proba` is available and succeeds, the probability is
the positive-class probability; when it is unavailable or fails and
`decision_function` succeeds, the probability is the sigmoid of the score;
the probability is null exactly when both attempts are unavailable or
fail; and no failure in this step changes the response from a
`PredictionResult`. -/
theorem C6_probability_step :
    ∀ (m : Model) (x : List Value),
      (∀ f p, m.predict_proba_pos = some f → f x = Except.ok p →
        probStep m x = some p)
      ∧ (∀ g s, probaFails m x = true → m.decision_function = some g →
          g x = Except.ok s → probStep m x = some (sigmoid s))
      ∧ (probStep m x = none ↔ probaFails m x = true ∧ decisionFails m x = true)
      ∧ (∀ (ctx : Ctx) (kvs : List (String × Value)) (pr : Int),
          ctx.model = some m → scaleStep ctx (rowToScale ctx kvs) = Except.ok x →
          m.predict x = Except.ok pr →
          handlePredictRequest ctx (Json.obj kvs)
            = ⟨200, Body.result pr (probStep m x)⟩) := by
  intro m x
  refine ⟨?_, ?_, ?_, ?_⟩
  · intro f p hf hfx
    simp [probStep, hf, hfx]
  · intro g s hpf hg hgx
    rcases hp : m.predict_proba_pos with _ | f
    · simp [probStep, hp, hg, hgx]
    · rcases hfx : f x with e | p
      · simp [probStep, hp, hfx, hg, hgx]
      · simp [probaFails, hp, hfx] at hpf
  · rcases hp : m.predict_proba_pos with _ | f
    · rcases hd : m.decision_function with _ | g
      · simp [probStep, probaFails, decisionFails, hp, hd]
      · rcases hgx : g x with e | s
        · simp [probStep, probaFails, decisionFails, hp, hd, hgx]
        · simp [probStep, probaFails, decisionFails, hp, hd, hgx]
    · rcases hfx : f x with e | p
      · rcases hd : m.decision_function with _ | g
        · simp [probStep, probaFails, decisionFails, hp, hfx, hd]
        · rcases hgx : g x with e2 | s
          · simp [probStep, probaFails, decisionFails, hp, hfx, hd, hgx]
          · simp [probStep, probaFails, decisionFails, hp, hfx, hd, hgx]
      · simp [probStep, probaFails, decisionFails, hp, hfx]
  · intro ctx kvs pr hm hscale hpred
    have e1 : handlePredictRequest ctx (Json.obj kvs)
        = ⟨200, predict_default ctx kvs⟩ := rfl
    rw [e1]
    simp only [predict_default, hscale, hm, hpred]

/-- A concrete model whose probability method raises and whose decision
score is 2. -/
def modelC6 : Model :=
  ⟨none, fun _ => Except.ok 1, some (fun _ => Except.error "proba raised"),
    some (fun _ => Except.ok 2.0)⟩

/-- Witness for C6 at `modelC6`: the failed probability attempt falls back
to the sigmoid of the decision score. -/
theorem C6_probability_step_witness :
    probStep modelC6 [] = some (sigmoid 2.0) :=
  (C6_probability_step modelC6 []).2.1 (fun _ => Except.ok 2.0) 2.0 rfl rfl rfl

/-! ## C8 — absent scaler -/

/-- C8: with the scaler absent and the model present, the scaling step
passes the aligned/imputed row's raw values through unchanged, and when
the classifier accepts them the route still answers HTTP 200 with a
`PredictionResult` computed from those unscaled values. -/
theorem C8_no_scaler_unscaled :
    ∀ (m : Model) (kvs : List (String × Value)) (pr : Int),
      scaleStep ⟨none, some m⟩ (rowToScale ⟨none, some m⟩ kvs)
        = Except.ok ((rowToScale ⟨none, some m⟩ kvs).map Prod.snd)
      ∧ (m.predict ((rowToScale ⟨none, some m⟩ kvs).map Prod.snd) = Except.ok pr →
          handlePredictRequest ⟨none, some m⟩ (Json.obj kvs)
            = ⟨200, Body.result pr
                (probStep m ((rowToScale ⟨none, some m⟩ kvs).map Prod.snd))⟩) := by
  intro m kvs pr
  refine ⟨rfl, fun h => ?_⟩
  have e1 : handlePredictRequest ⟨none, some m⟩ (Json.obj kvs)
      = ⟨200, match m.predict ((rowToScale ⟨none, some m⟩ kvs).map Prod.snd) with
              | Except.error e => Body.errorTrace e
              | Except.ok pr2 =>
                  Body.result pr2
                    (probStep m ((rowToScale ⟨none, some m⟩ kvs).map Prod.snd))⟩ := rfl
  rw [e1, h]

/-- A concrete model that accepts any input row. -/
def modelC8 : Model := ⟨none, fun _ => Except.ok 1, none, none⟩

/-- Witness for C8 at `modelC8` and the empty payload. -/
theorem C8_no_scaler_unscaled_witness :
    handlePredictRequest ⟨none, some modelC8⟩ (Json.obj [])
      = ⟨200, Body.result 1 none⟩ :=
  (C8_no_scaler_unscaled modelC8 [] 1).2 rfl

/-! ## C10 — extra payload keys cannot influence the response -/

/-- C10: with a known schema, two object payloads with distinct keys that
agree on every expected name (differing only in keys outside the schema)
get identical responses. -/
theorem C10_extra_keys_ignored :
    ∀ (ctx : Ctx) (expected : List String) (p1 p2 : List (String × Value)),
      expectedFeatures ctx = some expected →
      (p1.map Prod.fst).Nodup →
      (p2.map Prod.fst).Nodup →
      (∀ c, c ∈ expected → p1.lookup c = p2.lookup c) →
      handlePredictRequest ctx (Json.obj p1) = handlePredictRequest ctx (Json.obj p2) := by
  intro ctx expected p1 p2 hexp hnd1 hnd2 hagree
  have halign : alignRow expected p1 = alignRow expected p2 := by
    rw [alignRow_eq_map _ _ hnd1, alignRow_eq_map _ _ hnd2]
    refine List.map_congr_left (fun c hc => ?_)
    rw [hagree c hc]
  have hdts : dataToScale ctx p1 = dataToScale ctx p2 := by
    unfold dataToScale
    rw [hexp]
    exact halign
  have hrow : rowToScale ctx p1 = rowToScale ctx p2 := by
    unfold rowToScale
    rw [hdts]
  have hpd : predict_default ctx p1 = predict_default ctx p2 := by
    simp only [predict_default]
    rw [hrow]
  show (⟨200, predict_default ctx p1⟩ : Response) = ⟨200, predict_default ctx p2⟩
  rw [hpd]

/-- A concrete scaler/model pair: the schema is `["a"]` and the classifier
label is the length of the scaled row, so it depends on every surviving
column. -/
def scalerC10 : Scaler := ⟨some ["a"], none, fun row => Except.ok (row.map Prod.snd)⟩

def modelC10 : Model := ⟨none, fun vs => Except.ok (vs.length : Int), none, none⟩

def ctxC10 : Ctx := ⟨some scalerC10, some modelC10⟩

/-- Witness for C10: adding the extra key `"z"`, not in the schema, leaves
the response unchanged. -/
theorem C10_extra_keys_ignored_witness :
    handlePredictRequest ctxC10 (Json.obj [("a", Value.num 1)])
      = handlePredictRequest ctxC10
          (Json.obj [("a", Value.num 1), ("z", Value.str "extra")]) :=
  C10_extra_keys_ignored ctxC10 ["a"] _ _ rfl (by decide) (by decide)
    (by
      intro c hc
      have hca : c = "a" := by simpa using hc
      subst hca
      rfl)

end CreditApp
